import Mathlib

/-!
Shallow embedding of the `ErrorBlacklist` cog
(`src/errorblacklist/errorblacklist.py`): data model, the
`on_command_error` listener, the daily `clear_cache` task and the
settings commands the claims are about, together with theorems
settling the claims.

Association maps (Python `dict`s with only lookup/assignment) are
modelled as association lists with an explicit lookup and update.
-/

set_option autoImplicit false

namespace ErrorBlacklist

/-- First binding of a key in an association list (Python `d[k]` / `d.get(k)`). -/
def alookup {α β : Type} [DecidableEq α] : List (α × β) → α → Option β
  | [], _ => none
  | (k2, v2) :: rest, k => if k2 = k then some v2 else alookup rest k

/-- Assignment `d[k] = v` on an association list: replaces the first binding
of `k`, or appends a new binding when `k` is absent. -/
def aset {α β : Type} [DecidableEq α] : List (α × β) → α → β → List (α × β)
  | [], k, v => [(k, v)]
  | (k2, v2) :: rest, k, v =>
    if k2 = k then (k, v) :: rest else (k2, v2) :: aset rest k v

/-- JSON-like values, for the literal `_config_structure` dictionary. -/
inductive ConfigVal where
  | s : String → ConfigVal
  | b : Bool → ConfigVal
  | n : Nat → ConfigVal
  | l : List ConfigVal → ConfigVal
  | d : List (String × ConfigVal) → ConfigVal

/-- The default warning message from `_config_structure["global"]["message"]`. -/
def defaultMessage : String :=
  "Please do not use this command anymore.\n\n" ++
  "Continued usage of this command will result in you being blacklisted from using " ++
  "my commands."

/-- The module-level `_config_structure` dictionary, verbatim: its top-level
keys are only `"global"` and `"user"`; the `"message"` key lives one level
down, inside `"global"`. -/
def _config_structure : List (String × ConfigVal) :=
  [("global", ConfigVal.d
      [("enabled", ConfigVal.b false),
       ("amount", ConfigVal.n 5),
       ("clear_usage", ConfigVal.b true),
       ("whitelist", ConfigVal.d
          [("commands", ConfigVal.l []),
           ("cogs", ConfigVal.l []),
           ("users", ConfigVal.l [])]),
       ("ignore", ConfigVal.d
          [("guilds", ConfigVal.l []),
           ("channels", ConfigVal.l [])]),
       ("message", ConfigVal.s defaultMessage),
       ("message_enabled", ConfigVal.b true)]),
   ("user", ConfigVal.d [("errors", ConfigVal.d [])])]

/-- The global scope of the cog's `Config`, flattening the nested
`whitelist` and `ignore` dictionaries into named fields. -/
structure GlobalConfig where
  enabled : Bool
  amount : Nat
  clear_usage : Bool
  whitelist_commands : List String
  whitelist_cogs : List String
  whitelist_users : List Nat
  ignore_guilds : List Nat
  ignore_channels : List Nat
  message : String
  message_enabled : Bool
deriving DecidableEq, Repr

/-- The registered defaults, i.e. `_config_structure["global"]`. -/
def defaultGlobal : GlobalConfig :=
  { enabled := false
    amount := 5
    clear_usage := true
    whitelist_commands := []
    whitelist_cogs := []
    whitelist_users := []
    ignore_guilds := []
    ignore_channels := []
    message := defaultMessage
    message_enabled := true }

/-- Per-user persisted data: the `errors` mapping, command name to count. -/
abbrev UserErrors := List (String × Nat)

/-- State of the cog plus the host data it mutates: the persisted config,
the persisted per-user storage (`config.all_users()`), the in-memory
`self._cache`, the `self.first_run` flag and the bot's blacklist. -/
structure CogState where
  config : GlobalConfig
  users : List (Nat × UserErrors)
  cache : List (Nat × UserErrors)
  first_run : Bool
  blacklist : List Nat
deriving DecidableEq, Repr

/-- The data of a `(ctx, err)` pair reaching `on_command_error`, reduced to
the attributes the listener reads. `has_cog` stands for both `ctx.cog` and
`ctx.command.cog` being set (the invoked command's cog); `cog_name` is that
cog's qualified name (read by no branch of the listener). -/
structure ErrorCtx where
  unhandled_by_cog : Bool
  has_on_error : Bool
  has_cog : Bool
  cog_has_handler : Bool
  is_invoke_error : Bool
  cog_name : Option String
  author_id : Nat
  author_is_owner : Bool
  guild : Option Nat
  channel : Option Nat
  command_qualified_name : String
  command_name : String
deriving DecidableEq, Repr

/-- Result of one listener invocation: the new state, the message sent via
`ctx.send` (if any), and the user of a dispatched `error_blacklist` event. -/
structure HandlerResult where
  state : CogState
  sent : Option String
  dispatched : Option Nat
deriving DecidableEq, Repr

/-- An early `return`: nothing sent, nothing dispatched, state untouched. -/
def HandlerResult.noop (st : CogState) : HandlerResult := ⟨st, none, none⟩

/-- The guild/channel ignore test of the listener: only entered when
`ctx.guild` is truthy; inside it the guild id is tested against
`ignore.guilds` and the channel id (when a channel exists) against
`ignore.channels`. -/
def ignored (cfg : GlobalConfig) (guild channel : Option Nat) : Bool :=
  match guild with
  | none => false
  | some gid =>
    if gid ∈ cfg.ignore_guilds then true
    else
      match channel with
      | none => false
      | some cid => decide (cid ∈ cfg.ignore_channels)

/-- `m[name] += 1` under `try`/`except KeyError: m[name] = 1`. -/
def incrMap (m : UserErrors) (name : String) : UserErrors :=
  match alookup m name with
  | some v => aset m name (v + 1)
  | none => aset m name 1

/-- The cache update of the listener: fresh `{name: 1}` entry for a user not
in `self._cache`, otherwise increment (or create) the command's count. -/
def incrCache (cache : List (Nat × UserErrors)) (uid : Nat) (name : String) :
    List (Nat × UserErrors) :=
  match alookup cache uid with
  | none => aset cache uid [(name, 1)]
  | some m => aset cache uid (incrMap m name)

/-- Counter value for a `(user, command)` pair, absent entries read as 0. -/
def counter (cache : List (Nat × UserErrors)) (uid : Nat) (cmd : String) : Nat :=
  ((alookup cache uid).bind fun m => alookup m cmd).getD 0

/-- Python truthiness of `am and am >= amount`: `am` must be non-`None`,
non-zero and at least `amount`. -/
def pyTruthyGe (am : Option Nat) (amount : Nat) : Bool :=
  match am with
  | some a => a != 0 && decide (amount ≤ a)
  | none => false

/-- The count the blacklist test reads after the increment: the updated
cache entry for the author, looked up at `ctx.command.name` — not at the
qualified name the increment used. -/
def amAfter (st : CogState) (ctx : ErrorCtx) : Option Nat :=
  (alookup (incrCache st.cache ctx.author_id ctx.command_qualified_name)
      ctx.author_id).bind
    fun m => alookup m ctx.command_name

/-- `ctx.send(await self.config.message())` guarded by `message_enabled`. -/
def sentMessage (cfg : GlobalConfig) : Option String :=
  if cfg.message_enabled then some cfg.message else none

/-- `self.bot.add_to_blacklist({user})`. -/
def add_to_blacklist (bl : List Nat) (uid : Nat) : List Nat :=
  if uid ∈ bl then bl else uid :: bl

/-- The `on_command_error` listener. Guard order follows the source: the
cog-handler guards, the `CommandInvokeError`/cog guard, the enabled/owner
guard, the guild/channel ignore guard, the command whitelist, the user
whitelist (the cog whitelist is read nowhere here), then the warning
message, the cache increment, and the threshold test on `amAfter`. -/
def on_command_error (st : CogState) (ctx : ErrorCtx) : HandlerResult :=
  if !ctx.unhandled_by_cog && (ctx.has_on_error || (ctx.has_cog && ctx.cog_has_handler)) then
    HandlerResult.noop st
  else if !ctx.is_invoke_error || !ctx.has_cog then
    HandlerResult.noop st
  else if !st.config.enabled || ctx.author_is_owner then
    HandlerResult.noop st
  else if ignored st.config ctx.guild ctx.channel then
    HandlerResult.noop st
  else if ctx.command_qualified_name ∈ st.config.whitelist_commands then
    HandlerResult.noop st
  else if ctx.author_id ∈ st.config.whitelist_users then
    HandlerResult.noop st
  else if pyTruthyGe (amAfter st ctx) st.config.amount then
    ⟨{ st with
        cache := incrCache st.cache ctx.author_id ctx.command_qualified_name,
        blacklist := add_to_blacklist st.blacklist ctx.author_id },
      sentMessage st.config, some ctx.author_id⟩
  else
    ⟨{ st with
        cache := incrCache st.cache ctx.author_id ctx.command_qualified_name },
      sentMessage st.config, none⟩

/-- Result of one run of the `clear_cache` task body: the new state and
whether the task cancelled itself. -/
structure ClearResult where
  state : CogState
  cancelled : Bool
deriving DecidableEq, Repr

/-- One run of the daily `clear_cache` task: the first run only consumes
`self.first_run`; a run with `clear_usage` off cancels the task; otherwise
every user's persisted storage is cleared (`self._cache` is not touched). -/
def clear_cache (st : CogState) : ClearResult :=
  if st.first_run then ⟨{ st with first_run := false }, false⟩
  else if !st.config.clear_usage then ⟨st, true⟩
  else ⟨{ st with users := [] }, false⟩

/-- `cog_load`: the in-memory cache is loaded from `config.all_users()`
(the clear task is also started when `clear_usage` is set; task lifecycle
is outside the state model). -/
def cog_load (st : CogState) : CogState := { st with cache := st.users }

/-- The `[p]errorblacklist amount` command body, after conversion: a value
of `1` is refused with a quip and nothing is stored; any other value is
stored as the new threshold. -/
def error_blacklist_amount (cfg : GlobalConfig) (amount : Nat) : GlobalConfig :=
  if amount = 1 then cfg else { cfg with amount := amount }

/-- Modelled from the spec: the `PositiveInt` converter imported from
`utils.py`, a file this repository does not ship under `src/`; per its
name at the import site and the spec's description of the `amount`
command it accepts exactly the positive integers. -/
def positiveIntConvert (n : Int) : Option Nat :=
  if 0 < n then some n.toNat else none

/-- Threshold values reachable from the registered default through any
sequence of `amount` commands whose argument passed `PositiveInt`. -/
inductive amountReachable : Nat → Prop
  | init : amountReachable defaultGlobal.amount
  | step (cfg : GlobalConfig) (n : Int) (m : Nat) :
      amountReachable cfg.amount → positiveIntConvert n = some m →
      amountReachable (error_blacklist_amount cfg m).amount

/-- The `[p]errorblacklist message set` command body. With a message the
config is updated; with `None` the source evaluates
`_config_structure["message"]`, a lookup among the top-level keys
`"global"`/`"user"` only, so it raises `KeyError` before any write (were
the key present, the looked-up value would be stored). -/
def message_set (cfg : GlobalConfig) (message : Option String) :
    Except String GlobalConfig :=
  match message with
  | some m => Except.ok { cfg with message := m }
  | none =>
    match alookup _config_structure "message" with
    | some (ConfigVal.s s) => Except.ok { cfg with message := s }
    | some _ => Except.ok cfg
    | none => Except.error "KeyError"

/-! Concrete fixtures used to evaluate the model at specific inputs. -/

/-- The default settings with the watcher switched on. -/
def enabledConfig : GlobalConfig := { defaultGlobal with enabled := true }

/-- A cog state past its first task run, with an empty blacklist. -/
def mkState (cfg : GlobalConfig) (users cache : List (Nat × UserErrors)) : CogState :=
  { config := cfg, users := users, cache := cache, first_run := false, blacklist := [] }

/-- A context that passes every guard of the listener: a plain invoke
error without local error handling, a non-owner author, no guild. -/
def mkCtx (uid : Nat) (qname name : String) (cog : Option String) : ErrorCtx :=
  { unhandled_by_cog := true
    has_on_error := false
    has_cog := true
    cog_has_handler := false
    is_invoke_error := true
    cog_name := cog
    author_id := uid
    author_is_owner := false
    guild := none
    channel := none
    command_qualified_name := qname
    command_name := name }

/-- A guard-passing error on the top-level command `ping` by user 7. -/
def ctxPing : ErrorCtx := mkCtx 7 "ping" "ping" (some "Core")

/-- Enabled state with empty caches and storage. -/
def stEn : CogState := mkState enabledConfig [] []

/-- State just after `cog_load` on empty persisted storage. -/
def stFresh : CogState := cog_load (mkState enabledConfig [] [])

/-- Enabled state where user 42 already has 4 errors on the subcommand
`group sub` (one below the default threshold 5). -/
def stSub : CogState := mkState enabledConfig [] [(42, [("group sub", 4)])]

/-- An error on the subcommand `group sub`, whose plain name is `sub`. -/
def ctxSub : ErrorCtx := mkCtx 42 "group sub" "sub" (some "Group")

/-- Enabled state whose cog whitelist holds the cog `Mod`. -/
def stCog : CogState := mkState { enabledConfig with whitelist_cogs := ["Mod"] } [] []

/-- An error on the command `kick` of the whitelisted cog `Mod`. -/
def ctxCog : ErrorCtx := mkCtx 7 "kick" "kick" (some "Mod")

/-- Default settings (clear_usage on), user 1 holding 3 errors on `cmd`
both in memory and in persisted storage, past the first task run. -/
def stClear : CogState := mkState defaultGlobal [(1, [("cmd", 3)])] [(1, [("cmd", 3)])]

/-- Enabled state ignoring guild 5. -/
def stIgn : CogState := mkState { enabledConfig with ignore_guilds := [5] } [] []

/-- The `ping` error raised inside guild 5. -/
def ctxGuild : ErrorCtx := { ctxPing with guild := some 5, channel := some 10 }

/-- Enabled state ignoring channel 99. -/
def stChan : CogState := mkState { enabledConfig with ignore_channels := [99] } [] []

/-- The `ping` error raised in direct-message channel 99 (no guild). -/
def ctxDM : ErrorCtx := { ctxPing with channel := some 99 }

/-- Disabled state (the registered default) with empty caches. -/
def stDis : CogState := mkState defaultGlobal [] []

/-- The `ping` error raised by the bot owner. -/
def ctxOwner : ErrorCtx := { ctxPing with author_is_owner := true }

/-! Association-list lemmas. -/

theorem alookup_aset_self {α β : Type} [DecidableEq α] (l : List (α × β)) (k : α) (v : β) :
    alookup (aset l k v) k = some v := by
  induction l with
  | nil => simp [aset, alookup]
  | cons p rest ih =>
    obtain ⟨k2, v2⟩ := p
    by_cases h : k2 = k <;> simp [aset, alookup, h, ih]

theorem alookup_aset_ne {α β : Type} [DecidableEq α] (l : List (α × β)) (k k2 : α) (v : β)
    (h : k ≠ k2) : alookup (aset l k v) k2 = alookup l k2 := by
  induction l with
  | nil => simp [aset, alookup, h]
  | cons p rest ih =>
    obtain ⟨k3, v3⟩ := p
    by_cases h3 : k3 = k <;> simp [aset, alookup, h3, h, ih]

theorem alookup_incrMap_self (m : UserErrors) (name : String) :
    alookup (incrMap m name) name = some ((alookup m name).getD 0 + 1) := by
  unfold incrMap
  cases h : alookup m name <;> simp [h, alookup_aset_self]

theorem alookup_incrMap_ne (m : UserErrors) (name c : String) (h : c ≠ name) :
    alookup (incrMap m name) c = alookup m c := by
  unfold incrMap
  cases h2 : alookup m name <;> simp [alookup_aset_ne _ _ _ _ (Ne.symm h)]

theorem counter_incrCache_self (c : List (Nat × UserErrors)) (uid : Nat) (name : String) :
    counter (incrCache c uid name) uid name = counter c uid name + 1 := by
  unfold counter incrCache
  cases h : alookup c uid with
  | none => simp [h, alookup_aset_self, alookup]
  | some m => simp [h, alookup_aset_self, alookup_incrMap_self]

theorem counter_incrCache_ne (c : List (Nat × UserErrors)) (uid : Nat) (name : String)
    (uid2 : Nat) (cmd : String) (h : uid2 ≠ uid ∨ cmd ≠ name) :
    counter (incrCache c uid name) uid2 cmd = counter c uid2 cmd := by
  unfold counter incrCache
  by_cases hu : uid2 = uid
  · subst hu
    have hc : cmd ≠ name := h.resolve_left (by simp)
    cases h2 : alookup c uid2 with
    | none => simp [h2, alookup_aset_self, alookup, Ne.symm hc]
    | some m => simp [h2, alookup_aset_self, alookup_incrMap_ne m name cmd hc]
  · cases h2 : alookup c uid <;>
      simp [h2, alookup_aset_ne _ _ _ _ (Ne.symm hu)]

theorem ignored_true (cfg : GlobalConfig) (guild channel : Option Nat) (gid : Nat)
    (hg : guild = some gid)
    (h : gid ∈ cfg.ignore_guilds ∨
      ∃ cid, channel = some cid ∧ cid ∈ cfg.ignore_channels) :
    ignored cfg guild channel = true := by
  subst hg
  rcases h with h | ⟨cid, hc, h⟩
  · simp [ignored, h]
  · subst hc
    by_cases hgm : gid ∈ cfg.ignore_guilds <;> simp [ignored, hgm, h]

/-! Claim theorems. -/

/-- Claim C1: the counter for user 42 on the subcommand `group sub` reaches
the configured threshold 5, yet the listener neither blacklists the user
nor dispatches `error_blacklist`: the threshold test reads the counter at
`ctx.command.name` (`sub`) while the increment wrote `qualified_name`
(`group sub`), so for any command whose two names differ the blacklist
can never fire. -/
theorem threshold_reached_not_blacklisted :
    stSub.config.amount = 5 ∧
    counter (on_command_error stSub ctxSub).state.cache 42 "group sub" = 5 ∧
    (on_command_error stSub ctxSub).dispatched = none ∧
    (on_command_error stSub ctxSub).state.blacklist = [] := by decide

/-- Claim C2: with the cog `Mod` in the cog whitelist, an error of its
command `kick` is still processed — the warning message is sent and the
counter is incremented — because no branch of `on_command_error` reads
`whitelist.cogs`, contradicting the whitelist command's own help text. -/
theorem cog_whitelist_unchecked :
    ctxCog.cog_name = some "Mod" ∧ "Mod" ∈ stCog.config.whitelist_cogs ∧
    (on_command_error stCog ctxCog).sent = some defaultMessage ∧
    counter (on_command_error stCog ctxCog).state.cache 7 "kick" = 1 := by decide

/-- Claim C3 counterexample: starting from the state `cog_load` produces on
empty persisted storage (cache = persisted), a single counted error leaves
the in-memory cache and the persisted per-user storage different, so the
claimed mirror invariant is not preserved by the handler. -/
theorem mirror_invariant_fails :
    (on_command_error stFresh ctxPing).state.cache ≠
      (on_command_error stFresh ctxPing).state.users := by decide

/-- Claim C3 (amended): `cog_load` makes the in-memory cache equal to the
persisted per-user storage, but `on_command_error` never writes that
storage — every invocation leaves `config.all_users()` unchanged — so the
mirror holds only until the first counted error, not after every
increment. -/
theorem handler_never_writes_persisted (st : CogState) (ctx : ErrorCtx) :
    (on_command_error st ctx).state.users = st.users ∧
    (cog_load st).cache = (cog_load st).users := by
  constructor
  · unfold on_command_error
    split_ifs <;> rfl
  · rfl

/-- Claim C4 counterexample: with `clear_usage` enabled and the first run
already consumed, a run of `clear_cache` leaves the in-memory mapping
exactly as it was (user 1 still has 3 errors on `cmd`), although the claim
says both the in-memory mapping and its persisted mirror are reset. -/
theorem clear_keeps_in_memory_cache :
    stClear.config.clear_usage = true ∧ stClear.first_run = false ∧
    (clear_cache stClear).state.cache = [(1, [("cmd", 3)])] ∧
    (clear_cache stClear).state.cache ≠ [] := by decide

/-- Claim C4 (amended): a non-first run of the daily task clears every
user's persisted storage when `clear_usage` is enabled — leaving the
in-memory cache untouched — and changes no user data (cancelling itself)
when the flag is disabled; the first run after start only consumes the
`first_run` flag and changes no data at all. -/
theorem clear_cache_spec (st : CogState) (h : st.first_run = false) :
    (st.config.clear_usage = true →
      clear_cache st = ⟨{ st with users := [] }, false⟩) ∧
    (st.config.clear_usage = false → clear_cache st = ⟨st, true⟩) ∧
    (∀ st2 : CogState, st2.first_run = true →
      clear_cache st2 = ⟨{ st2 with first_run := false }, false⟩) := by
  refine ⟨fun h2 => ?_, fun h2 => ?_, fun st2 h2 => ?_⟩ <;>
    simp [clear_cache, h, h2]

/-- Witness for C4's theorem at the concrete state `stClear`. -/
theorem clear_cache_spec_witness :
    clear_cache stClear = ⟨{ stClear with users := [] }, false⟩ :=
  (clear_cache_spec stClear rfl).1 rfl

/-- Claim C5: for every state, context and `(user, command)` pair, one
listener invocation either leaves the in-memory counter unchanged or —
only at the invoking author and the errored command's qualified name —
raises it by exactly one; and a run of the daily task never changes any
in-memory counter. No operation of the model lowers a counter. -/
theorem counter_monotone (st : CogState) (ctx : ErrorCtx) (uid : Nat) (cmd : String) :
    (counter (on_command_error st ctx).state.cache uid cmd =
        counter st.cache uid cmd ∨
      (uid = ctx.author_id ∧ cmd = ctx.command_qualified_name ∧
        counter (on_command_error st ctx).state.cache uid cmd =
          counter st.cache uid cmd + 1)) ∧
    (clear_cache st).state.cache = st.cache := by
  constructor
  · unfold on_command_error
    split_ifs <;> try (left; rfl)
    all_goals (
      by_cases hu : uid = ctx.author_id
      · by_cases hc : cmd = ctx.command_qualified_name
        · subst hu; subst hc
          exact Or.inr ⟨rfl, rfl, counter_incrCache_self st.cache _ _⟩
        · exact Or.inl (counter_incrCache_ne st.cache _ _ _ _ (Or.inr hc))
      · exact Or.inl (counter_incrCache_ne st.cache _ _ _ _ (Or.inl hu)))
  · unfold clear_cache
    split_ifs <;> rfl

/-- Claim C6 counterexample: channel 99 is in the ignored-channels set, the
error happens in that channel (a direct message, so no guild), and the
listener still sends the warning and increments the counter: the ignore
sets are consulted only when the error happens inside a guild. -/
theorem ignored_dm_channel_processed :
    ctxDM.channel = some 99 ∧ (99 : Nat) ∈ stChan.config.ignore_channels ∧
    (on_command_error stChan ctxDM).sent = some defaultMessage ∧
    counter (on_command_error stChan ctxDM).state.cache 7 "ping" = 1 := by decide

/-- Claim C6 (amended): for an error raised inside a guild, if the guild's
ID is in the ignored-guilds set, or the channel exists and its ID is in
the ignored-channels set, the listener returns early: nothing is sent,
nothing is dispatched, and the state is unchanged. -/
theorem ignored_guild_noop (st : CogState) (ctx : ErrorCtx) (gid : Nat)
    (hg : ctx.guild = some gid)
    (h : gid ∈ st.config.ignore_guilds ∨
      ∃ cid, ctx.channel = some cid ∧ cid ∈ st.config.ignore_channels) :
    on_command_error st ctx = HandlerResult.noop st := by
  have hi := ignored_true st.config ctx.guild ctx.channel gid hg h
  unfold on_command_error
  split_ifs <;> rfl

/-- Witness for C6's theorem: an error in ignored guild 5 is a no-op. -/
theorem ignored_guild_noop_witness :
    on_command_error stIgn ctxGuild = HandlerResult.noop stIgn :=
  ignored_guild_noop stIgn ctxGuild 5 rfl (Or.inl (by decide))

/-- Claim C7: with the enabled flag off the listener does nothing for any
context: no message is sent, nothing is dispatched, and the whole state —
config, caches, persisted storage, blacklist — is returned unchanged. -/
theorem disabled_noop (st : CogState) (ctx : ErrorCtx)
    (h : st.config.enabled = false) :
    on_command_error st ctx = HandlerResult.noop st := by
  unfold on_command_error
  split_ifs <;> first | rfl | simp_all

/-- Witness for C7's theorem at the registered-default (disabled) state. -/
theorem disabled_noop_witness :
    stDis.config.enabled = false ∧
    on_command_error stDis ctxPing = HandlerResult.noop stDis :=
  ⟨rfl, disabled_noop stDis ctxPing rfl⟩

/-- Claim C8: when the invoking author is the bot owner the listener does
nothing, whatever the state: no message, no counting, no blacklisting. -/
theorem owner_noop (st : CogState) (ctx : ErrorCtx)
    (h : ctx.author_is_owner = true) :
    on_command_error st ctx = HandlerResult.noop st := by
  unfold on_command_error
  split_ifs <;> first | rfl | simp_all

/-- Witness for C8's theorem: the owner's error in an enabled state. -/
theorem owner_noop_witness :
    ctxOwner.author_is_owner = true ∧
    on_command_error stEn ctxOwner = HandlerResult.noop stEn :=
  ⟨rfl, owner_noop stEn ctxOwner rfl⟩

/-- Claim C9: `_config_structure` has no top-level `"message"` key (only
`"global"` and `"user"`), so the reset path of the message-set command
raises `KeyError` before any write: for every configuration the stored
message is left unchanged and is never reset to the default this way. -/
theorem message_reset_raises (cfg : GlobalConfig) :
    alookup _config_structure "message" = none ∧
    message_set cfg none = Except.error "KeyError" := by
  exact ⟨rfl, rfl⟩

/-- Claim C10: the registered default threshold is 5, the amount command
refuses 1 without writing, and every threshold reachable through
`PositiveInt`-converted arguments is at least 2; consequently a user's
first counted error (no cache entry yet) never dispatches a blacklist
event and leaves the blacklist unchanged. -/
theorem amount_always_ge_two (a : Nat) (h : amountReachable a) :
    2 ≤ a ∧ defaultGlobal.amount = 5 ∧
    (∀ cfg : GlobalConfig, error_blacklist_amount cfg 1 = cfg) ∧
    (∀ (st : CogState) (ctx : ErrorCtx), st.config.amount = a →
      alookup st.cache ctx.author_id = none →
      (on_command_error st ctx).dispatched = none ∧
      (on_command_error st ctx).state.blacklist = st.blacklist) := by
  have h2 : 2 ≤ a := by
    induction h with
    | init => decide
    | step cfg n m hr hc ih =>
      by_cases hm : m = 1
      · simpa [error_blacklist_amount, hm] using ih
      · have hn : 0 < n ∧ n.toNat = m := by
          by_cases h0 : 0 < n
          · refine ⟨h0, ?_⟩
            simpa [positiveIntConvert, h0] using hc
          · simp [positiveIntConvert, h0] at hc
        have : 2 ≤ m := by omega
        simpa [error_blacklist_amount, hm] using this
  refine ⟨h2, rfl, fun cfg => rfl, fun st ctx hA hNone => ?_⟩
  have ham : amAfter st ctx = none ∨ amAfter st ctx = some 1 := by
    unfold amAfter incrCache
    rw [hNone, alookup_aset_self]
    by_cases hq : ctx.command_qualified_name = ctx.command_name <;>
      simp [alookup, hq]
  have hfalse : pyTruthyGe (amAfter st ctx) st.config.amount = false := by
    rcases ham with he | he <;> rw [he] <;> simp [pyTruthyGe]
    omega
  unfold on_command_error
  split_ifs <;> simp_all [HandlerResult.noop]

/-- Witness for C10's theorem: the default threshold 5 is reachable and a
first error on `ping` in the enabled default state dispatches nothing. -/
theorem amount_always_ge_two_witness :
    2 ≤ (5 : Nat) ∧ (on_command_error stEn ctxPing).dispatched = none :=
  ⟨(amount_always_ge_two 5 amountReachable.init).1,
    ((amount_always_ge_two 5 amountReachable.init).2.2.2 stEn ctxPing rfl rfl).1⟩

end ErrorBlacklist
